import Mathlib

/-
Verification of the billing and payment reconciliation core of the
tenara_saas repository (Django application), as a shallow embedding.

Conventions of the embedding:
* Monetary values (Django `DecimalField`) are exact fixed-point
  decimals with two fractional digits; they are embedded as `Int`
  (counts of the minimal currency unit), on which the only operations
  the modelled code performs — addition, subtraction, multiplication
  and order comparison — agree exactly with `Decimal` arithmetic.
* Dates are embedded as integers (day ordinals); only order comparisons
  on dates occur in the modelled code.
* Character strings that the modelled code inspects (phone numbers) are
  embedded as `List Char`.  Display-only strings (invoice numbers,
  receipt identifiers, notes, proof uploads) are omitted: no modelled
  code path reads them.
* Django model rows become structures carrying an `id` (the primary
  key); the database becomes a `Store` of lists of rows; `save()` /
  `objects.create()` become explicit state passing.
* A view's `request.user.is_landlord` / `request.landlord` pair is
  embedded as an `Option Nat` (the landlord id when the requester is a
  landlord, `none` otherwise).
-/

namespace Tenara

abbrev Money := Int
abbrev Date := Int

/-- Invoice.STATUS_CHOICES: pending / partial / paid / overdue
(the source string 'partial', displayed "Partially Paid", is the
constructor `partiallyPaid` here because of a Lean keyword clash). -/
inductive InvoiceStatus
  | pending
  | partiallyPaid
  | paid
  | overdue
deriving DecidableEq, Repr

/-- Payment.STATUS_CHOICES: pending / confirmed / failed. -/
inductive PaymentStatus
  | pending
  | confirmed
  | failed
deriving DecidableEq, Repr

/-- Payment.PAYMENT_METHOD_CHOICES. -/
inductive PayMethod
  | mpesa
  | cash
  | bank
  | cheque
deriving DecidableEq, Repr

/-- Lease.STATUS_CHOICES. -/
inductive LeaseStatus
  | active
  | expired
  | terminated
deriving DecidableEq, Repr

/-- Unit.WATER_BILLING_CHOICES. -/
inductive WaterBilling
  | fixed
  | metered
  | included
deriving DecidableEq, Repr

/-- properties.models.Property: only the ownership link matters to the
modelled operations. -/
structure PropertyRec where
  id : Nat
  landlordId : Nat
deriving DecidableEq, Repr

/-- properties.models.Unit (named `UnitRec` because `Unit` is taken in
Lean): the billing-relevant fields. -/
structure UnitRec where
  id : Nat
  propertyId : Nat
  monthlyRent : Money
  garbageFee : Money
  waterBillingType : WaterBilling
  waterFixedAmount : Money
  waterRatePerUnit : Money
  lastWaterReading : Money
deriving DecidableEq, Repr

/-- tenants_mgmt.models.Lease: the billing-relevant fields.
`rentAmount` is the frozen monthly rent copied from the unit at lease
creation. -/
structure LeaseRec where
  id : Nat
  unitId : Nat
  status : LeaseStatus
  rentAmount : Money
deriving DecidableEq, Repr

/-- invoicing.models.Invoice: the billing-relevant fields.  The
generated display `invoice_number`, the meter-reading snapshot fields
and `notes` are omitted (no modelled code path reads them). -/
structure Invoice where
  id : Nat
  leaseId : Nat
  billingMonth : Int
  dueDate : Date
  rentAmount : Money
  waterAmount : Money
  garbageAmount : Money
  otherCharges : Money
  totalAmount : Money
  amountPaid : Money
  status : InvoiceStatus
deriving DecidableEq, Repr

/-- payments.models.Payment: the billing-relevant fields.  `createdAt`
embeds the `created_at` timestamp (used by the callback's
`order_by('-created_at')`); receipt / transaction-id / notes strings
are omitted (no modelled code path reads them). -/
structure Payment where
  id : Nat
  invoiceId : Nat
  amount : Money
  method : PayMethod
  phone : List Char
  isManual : Bool
  status : PaymentStatus
  createdAt : Nat
  confirmedAt : Option Nat
deriving DecidableEq, Repr

/-- The database state: one list of rows per table. -/
structure Store where
  properties : List PropertyRec
  units : List UnitRec
  leases : List LeaseRec
  invoices : List Invoice
  payments : List Payment
deriving DecidableEq, Repr

/-! ### Invoice Ledger: status derivation and save (invoicing/models.py) -/

/-- Invoice.update_status, abstracted over exactly the four values it
reads: the paid check first, then partial, then overdue, else pending. -/
def deriveStatus (amountPaid totalAmount : Money) (dueDate today : Date) :
    InvoiceStatus :=
  if amountPaid ≥ totalAmount then .paid
  else if amountPaid > 0 then .partiallyPaid
  else if dueDate < today then .overdue
  else .pending

/-- Invoice.update_status: sets `self.status` from
`(amount_paid, total_amount, due_date, today)`. -/
def updateStatus (inv : Invoice) (today : Date) : Invoice :=
  { inv with
    status := deriveStatus inv.amountPaid inv.totalAmount inv.dueDate today }

/-- Invoice.save: recomputes `total_amount` as the sum of the four
charge components, then recomputes the status.  (Invoice-number
generation and string-to-Decimal/date coercions are identities in this
embedding.) -/
def invoiceSave (inv : Invoice) (today : Date) : Invoice :=
  updateStatus
    { inv with
      totalAmount :=
        inv.rentAmount + inv.waterAmount + inv.garbageAmount +
          inv.otherCharges }
    today

/-- Invoice.balance property: `total_amount - amount_paid`. -/
def balance (inv : Invoice) : Money :=
  inv.totalAmount - inv.amountPaid

/-! ### Unit Rate Engine (properties/models.py) -/

/-- Unit.get_water_charge: `included` gives 0; `fixed` gives the
configured fixed amount; `metered` with a reading gives consumption
(clamped at 0 when negative) times the rate, and 0 with no reading. -/
def getWaterCharge (u : UnitRec) (currentReading : Option Money) : Money :=
  match u.waterBillingType with
  | .included => 0
  | .fixed => u.waterFixedAmount
  | .metered =>
    match currentReading with
    | some r =>
      let consumption := r - u.lastWaterReading
      let consumption := if consumption < 0 then 0 else consumption
      consumption * u.waterRatePerUnit
    | none => 0

/-! ### Payment Reconciler (payments/models.py) -/

/-- Payment.save: after persisting the row, if the payment's status is
now 'confirmed' and its previous stored status was not 'confirmed'
(`oldStatus = none` models a freshly created row, `is_new`), add the
payment's amount to the owning invoice's `amount_paid` and save the
invoice.  Returns the owning invoice as left by the hook. -/
def paymentSaveHook (p : Payment) (oldStatus : Option PaymentStatus)
    (inv : Invoice) (today : Date) : Invoice :=
  if p.status = .confirmed ∧ oldStatus ≠ some .confirmed then
    invoiceSave { inv with amountPaid := inv.amountPaid + p.amount } today
  else inv

/-- Payment.confirm_payment: if the status is not 'confirmed', set it to
'confirmed', stamp `confirmed_at`, and save (triggering the
Payment.save hook on the owning invoice). -/
def confirmPayment (p : Payment) (inv : Invoice) (now : Nat)
    (today : Date) : Payment × Invoice :=
  if p.status ≠ .confirmed then
    let p' := { p with status := .confirmed, confirmedAt := some now }
    (p', paymentSaveHook p' (some p.status) inv today)
  else (p, inv)

/-- Payment.fail_payment: if the status is not 'failed', set it to
'failed' and save (the Payment.save hook then has no invoice effect,
since the new status is not 'confirmed'). -/
def failPayment (p : Payment) (inv : Invoice) (today : Date) :
    Payment × Invoice :=
  if p.status ≠ .failed then
    let p' := { p with status := .failed }
    (p', paymentSaveHook p' (some p.status) inv today)
  else (p, inv)

/-! ### Store lookups: the ownership chain and row updates -/

/-- Owning landlord of a lease, walking unit -> property -> landlord. -/
def leaseOwner (s : Store) (l : LeaseRec) : Option Nat :=
  (s.units.find? (fun u => u.id == l.unitId)).bind fun u =>
    (s.properties.find? (fun p => p.id == u.propertyId)).map
      (fun p => p.landlordId)

/-- Owning landlord of an invoice, walking lease -> unit -> property. -/
def invoiceOwner (s : Store) (inv : Invoice) : Option Nat :=
  (s.leases.find? (fun l => l.id == inv.leaseId)).bind (leaseOwner s)

/-- Owning landlord of the invoice whose primary key is `pk`. -/
def invoiceOwnerById (s : Store) (pk : Nat) : Option Nat :=
  (s.invoices.find? (fun i => i.id == pk)).bind (invoiceOwner s)

/-- get_object_or_404(Invoice, pk=pk,
lease__unit__unit_property__landlord=landlord): the lookup the
landlord-facing invoice views use, scoped by the requesting landlord. -/
def getInvoiceScoped (s : Store) (landlordId pk : Nat) : Option Invoice :=
  s.invoices.find?
    (fun i => i.id == pk && invoiceOwner s i == some landlordId)

/-- get_object_or_404(Lease, pk=pk,
unit__unit_property__landlord=landlord). -/
def getLeaseScoped (s : Store) (landlordId pk : Nat) : Option LeaseRec :=
  s.leases.find?
    (fun l => l.id == pk && leaseOwner s l == some landlordId)

/-- Persist an updated invoice row (UPDATE by primary key). -/
def updateInvoice (s : Store) (inv : Invoice) : Store :=
  { s with
    invoices := s.invoices.map (fun i => if i.id == inv.id then inv else i) }

/-- Persist an updated payment row (UPDATE by primary key). -/
def updatePayment (s : Store) (p : Payment) : Store :=
  { s with
    payments := s.payments.map (fun q => if q.id == p.id then p else q) }

/-- Fetch an invoice row by primary key. -/
def findInvoice (s : Store) (pk : Nat) : Option Invoice :=
  s.invoices.find? (fun i => i.id == pk)

/-! ### Character-list helpers for the callback's phone matching -/

/-- Whether `pat` is an initial segment of `hay` (character lists). -/
def startsWithSeq : List Char → List Char → Bool
  | _, [] => true
  | [], _ :: _ => false
  | c :: cs, q :: qs => c == q && startsWithSeq cs qs

/-- Whether `pat` occurs contiguously inside `hay`: the embedding of the
SQL `LIKE` test behind Django's `icontains` (phone digits have no
letter case). -/
def containsSeq : List Char → List Char → Bool
  | [], pat => pat.isEmpty
  | c :: cs, pat => startsWithSeq (c :: cs) pat || containsSeq cs pat

/-- Python's `s[-n:]`: the last `n` characters (the whole list when it
is shorter than `n`). -/
def lastChars (n : Nat) (l : List Char) : List Char :=
  l.drop (l.length - n)

/-! ### Landlord-facing views (payments/views.py, invoicing/views.py) -/

/-- Outcome of RecordManualPaymentView.post.  `accessDenied` is the
non-landlord redirect, `missingFields` the required-field check,
`notFound` the scoped get_object_or_404 miss (HTTP 404),
`invalidAmount` the non-positive / unparsable amount rejection;
`success` carries the exceeds-balance warning flag. -/
inductive RecordResult
  | accessDenied
  | missingFields
  | notFound
  | invalidAmount
  | success (warned : Bool)
deriving DecidableEq, Repr

/-- RecordManualPaymentView.post.  Steps, in source order: the
is_landlord guard; the required-field check; the landlord-scoped
invoice fetch; the amount validation (`amount <= 0` rejected, and a
missing or unparsable amount string is `none`); the clamp of the amount
to the invoice balance with a warning; creation of the Payment directly
in 'confirmed' state (whose Payment.save hook adds the amount to the
in-memory invoice and saves it); then the view's own explicit
`invoice.amount_paid = invoice.amount_paid + amount` on that same
in-memory invoice object, followed by `invoice.save()`. -/
def recordManualPaymentPost (s : Store) (requester : Option Nat)
    (invoiceId : Option Nat) (amountStr : Option Money)
    (method : Option PayMethod) (now : Nat) (today : Date)
    (newPid : Nat) : RecordResult × Store :=
  match requester with
  | none => (.accessDenied, s)
  | some lid =>
    match invoiceId, amountStr, method with
    | some pk, some amt, some meth =>
      match getInvoiceScoped s lid pk with
      | none => (.notFound, s)
      | some inv =>
        if amt ≤ 0 then (.invalidAmount, s)
        else
          let bal := balance inv
          let warned := amt > bal
          let amount := if amt > bal then bal else amt
          let payment : Payment :=
            { id := newPid, invoiceId := inv.id, amount := amount,
              method := meth, phone := [], isManual := true,
              status := .confirmed, createdAt := now,
              confirmedAt := some now }
          let inv1 := paymentSaveHook payment none inv today
          let inv2 :=
            invoiceSave { inv1 with amountPaid := inv1.amountPaid + amount }
              today
          let s' :=
            updateInvoice { s with payments := s.payments ++ [payment] } inv2
          (.success warned, s')
    | _, _, _ => (.missingFields, s)

/-- Outcome of InvoiceDetailView.get. -/
inductive DetailResult
  | accessDenied
  | notFound
  | ok (inv : Invoice)
deriving DecidableEq, Repr

/-- InvoiceDetailView.get: the is_landlord guard, then the
landlord-scoped get_object_or_404 (a primary key belonging to another
landlord misses the scoped query and yields HTTP 404). -/
def invoiceDetailGet (s : Store) (requester : Option Nat) (pk : Nat) :
    DetailResult :=
  match requester with
  | none => .accessDenied
  | some lid =>
    match getInvoiceScoped s lid pk with
    | none => .notFound
    | some inv => .ok inv

/-- Outcome of InvoiceCreateView.post. -/
inductive CreateResult
  | accessDenied
  | notFound
  | invalidMonth
  | duplicateInvoice
  | created (pk : Nat)
deriving DecidableEq, Repr

/-- Whether some invoice row exists for the (lease, billing_month)
pair: the duplicate check `Invoice.objects.filter(...).exists()`. -/
def hasPair (invs : List Invoice) (leaseId : Nat) (m : Int) : Bool :=
  invs.any (fun i => i.leaseId == leaseId && i.billingMonth == m)

/-- Number of invoice rows stored for the (lease, billing_month) pair. -/
def countPair (invs : List Invoice) (leaseId : Nat) (m : Int) : Nat :=
  (invs.filter (fun i => i.leaseId == leaseId && i.billingMonth == m)).length

/-- InvoiceCreateView.post.  Steps, in source order: the is_landlord
guard; the landlord-scoped lease fetch; the billing-month parse
(`none` models a string `strptime` rejects); the duplicate check on
(lease, billing_month); then `Invoice.objects.create`, which runs
Invoice.save (total recomputation and status derivation) before the
row is inserted. -/
def invoiceCreatePost (s : Store) (requester : Option Nat)
    (leaseId : Option Nat) (billingMonth : Option Int) (dueDate : Date)
    (rent water garbage other : Money) (newId : Nat) (today : Date) :
    CreateResult × Store :=
  match requester with
  | none => (.accessDenied, s)
  | some lid =>
    match leaseId with
    | none => (.notFound, s)
    | some lpk =>
      match getLeaseScoped s lid lpk with
      | none => (.notFound, s)
      | some l =>
        match billingMonth with
        | none => (.invalidMonth, s)
        | some m =>
          if hasPair s.invoices l.id m then (.duplicateInvoice, s)
          else
            let inv :=
              invoiceSave
                { id := newId, leaseId := l.id, billingMonth := m,
                  dueDate := dueDate, rentAmount := rent,
                  waterAmount := water, garbageAmount := garbage,
                  otherCharges := other, totalAmount := 0,
                  amountPaid := 0, status := .pending } today
            (.created newId, { s with invoices := s.invoices ++ [inv] })

/-- InvoiceAdmin.mark_as_overdue (invoicing/admin.py): the bulk action
runs `queryset.update(status='overdue')`, a direct SQL UPDATE on the
selected rows that bypasses Invoice.save entirely — neither
total_amount nor status is recomputed.  `selected` is the admin's
queryset selection by primary key; the returned count is the action's
`updated` value. -/
def markAsOverdue (s : Store) (selected : Nat → Bool) : Store × Nat :=
  ({ s with
      invoices := s.invoices.map
        (fun i => if selected i.id then { i with status := .overdue }
          else i) },
    (s.invoices.filter (fun i => selected i.id)).length)

/-- InvoiceAdmin.mark_as_paid (invoicing/admin.py): for each selected
invoice the action sets amount_paid to the stored total_amount and calls
`invoice.save()`, so this persist path does go through Invoice.save
(totals and status re-derived). -/
def markAsPaid (s : Store) (selected : Nat → Bool) (today : Date) : Store :=
  { s with
    invoices := s.invoices.map
      (fun i => if selected i.id then
        invoiceSave { i with amountPaid := i.totalAmount } today else i) }

/-- Outcome of GenerateMonthlyInvoicesView.post.  `serverError` is an
uncaught exception escaping the view's `@transaction.atomic`. -/
inductive GenResult
  | accessDenied
  | invalidMonth
  | serverError
  | generated (created skipped : Nat)
deriving DecidableEq, Repr

/-- The currently-active leases under a landlord:
`Lease.objects.filter(unit__unit_property__landlord=landlord,
status='active')`. -/
def activeLeases (s : Store) (landlordId : Nat) : List LeaseRec :=
  s.leases.filter
    (fun l => l.status == .active && leaseOwner s l == some landlordId)

/-- The invoice `GenerateMonthlyInvoicesView.post` creates for one
lease: the lease's frozen rent, the unit's current water charge with no
reading supplied, the unit's garbage fee, zero other charges; run
through Invoice.save. -/
def mkMonthlyInvoice (l : LeaseRec) (u : UnitRec) (m : Int)
    (dueDate : Date) (newId : Nat) (today : Date) : Invoice :=
  invoiceSave
    { id := newId, leaseId := l.id, billingMonth := m, dueDate := dueDate,
      rentAmount := l.rentAmount, waterAmount := getWaterCharge u none,
      garbageAmount := u.garbageFee, otherCharges := 0,
      totalAmount := 0, amountPaid := 0, status := .pending } today

/-- The per-lease loop of GenerateMonthlyInvoicesView.post: skip (and
count) a lease that already has an invoice for the billing month,
otherwise insert a fresh invoice and count it as created.  `createFails
l.id = true` models a storage-level failure while inserting that
lease's invoice (for instance an invoice-number uniqueness collision),
and a lease whose unit row cannot be resolved raises likewise; an
`Except.error` is the exception propagating out of the loop. -/
def genLoop (units : List UnitRec) (m : Int) (dueDate today : Date)
    (createFails : Nat → Bool) :
    List LeaseRec → List Invoice → Nat → Nat → Nat →
    Except Unit (List Invoice × Nat × Nat)
  | [], invs, created, skipped, _ => .ok (invs, created, skipped)
  | l :: rest, invs, created, skipped, nextId =>
    if hasPair invs l.id m then
      genLoop units m dueDate today createFails rest invs created
        (skipped + 1) nextId
    else
      match units.find? (fun u => u.id == l.unitId) with
      | none => .error ()
      | some u =>
        if createFails l.id then .error ()
        else
          genLoop units m dueDate today createFails rest
            (invs ++ [mkMonthlyInvoice l u m dueDate nextId today])
            (created + 1) skipped (nextId + 1)

/-- GenerateMonthlyInvoicesView.post.  The whole method body runs under
a single `@transaction.atomic`: an exception raised while handling any
lease aborts the request and rolls back every write of the batch, so
the `serverError` outcome leaves the store exactly as it was. -/
def generateMonthlyPost (s : Store) (requester : Option Nat)
    (billingMonth : Option Int) (dueDate : Date) (today : Date)
    (idBase : Nat) (createFails : Nat → Bool) : GenResult × Store :=
  match requester with
  | none => (.accessDenied, s)
  | some lid =>
    match billingMonth with
    | none => (.invalidMonth, s)
    | some m =>
      match
        genLoop s.units m dueDate today createFails
          (activeLeases s lid) s.invoices 0 0 idBase
      with
      | .error _ => (.serverError, s)
      | .ok (invs, created, skipped) =>
        (.generated created skipped, { s with invoices := invs })

/-! ### Tenant-facing initiation and the gateway callback
(payments/views.py) -/

/-- Outcome of InitiateMpesaPaymentView.post. -/
inductive InitResult
  | missingFields
  | notFound
  | invalidAmount
  | initiated (pid : Nat)
deriving DecidableEq, Repr

/-- The phone sanitisation of InitiateMpesaPaymentView.post: strip
spaces and '+', then normalise a leading '0' to '254', and force a
'254' country code otherwise. -/
def sanitizePhone (ph : List Char) : List Char :=
  let ph := ph.filter (fun c => !(c == ' ') && !(c == '+'))
  match ph with
  | '0' :: rest => '2' :: '5' :: '4' :: rest
  | _ =>
    if startsWithSeq ph ['2', '5', '4'] then ph
    else '2' :: '5' :: '4' :: ph

/-- InitiateMpesaPaymentView.post.  The view carries no
LoginRequiredMixin and never reads a landlord identity: the invoice is
fetched by the client-supplied primary key alone
(`get_object_or_404(Invoice, pk=invoice_id)`).  A pending Payment is
created against it; the Payment.save hook of a pending payment leaves
the invoice untouched. -/
def initiateMpesaPost (s : Store) (invoiceId : Option Nat)
    (phone : Option (List Char)) (amountStr : Option Money)
    (newPid : Nat) (now : Nat) : InitResult × Store :=
  match invoiceId, phone, amountStr with
  | some pk, some ph, some amt =>
    match findInvoice s pk with
    | none => (.notFound, s)
    | some inv =>
      if amt ≤ 0 then (.invalidAmount, s)
      else
        let p : Payment :=
          { id := newPid, invoiceId := inv.id, amount := amt,
            method := .mpesa, phone := sanitizePhone ph,
            isManual := false, status := .pending, createdAt := now,
            confirmedAt := none }
        (.initiated newPid, { s with payments := s.payments ++ [p] })
  | _, _, _ => (.missingFields, s)

/-- The callback's correlation key:
`str(phone_number)[-9:] if phone_number else ''`. -/
def callbackSuffix (phone : Option (List Char)) : List Char :=
  match phone with
  | none => []
  | some ph => lastChars 9 ph

/-- The callback's candidate filter:
`Payment.objects.filter(phone_number__icontains=suffix,
status='pending')`. -/
def matchesCallback (suffix : List Char) (p : Payment) : Bool :=
  p.status == .pending && containsSeq p.phone suffix

/-- One comparison step of the most-recent selection. -/
def moreRecent (acc : Option Payment) (p : Payment) : Option Payment :=
  match acc with
  | none => some p
  | some q => if p.createdAt > q.createdAt then some p else some q

/-- `order_by('-created_at').first()`: the matching payment with the
greatest `created_at` (the earliest listed wins a timestamp tie). -/
def mostRecentFirst (ps : List Payment) : Option Payment :=
  ps.foldl moreRecent none

/-- The payment the callback is applied to. -/
def selectCallbackPayment (ps : List Payment) (suffix : List Char) :
    Option Payment :=
  mostRecentFirst (ps.filter (matchesCallback suffix))

/-- MpesaCallbackView.post, after payload parsing.  An unmatched
callback is acknowledged and dropped.  On result code 0 the payment is
saved as 'confirmed' (its Payment.save hook adds the amount to the
freshly loaded in-memory invoice and saves it) and the view then adds
the amount again to that same in-memory invoice object and saves it.
On any other result code the payment is saved as 'failed', with no
invoice effect. -/
def mpesaCallbackPost (s : Store) (phone : Option (List Char))
    (resultCode : Int) (now : Nat) (today : Date) : Store :=
  let suffix := callbackSuffix phone
  match selectCallbackPayment s.payments suffix with
  | none => s
  | some p =>
    if resultCode = 0 then
      let p' := { p with status := .confirmed, confirmedAt := some now }
      match findInvoice s p.invoiceId with
      | none => updatePayment s p'
      | some inv =>
        let inv1 := paymentSaveHook p' (some p.status) inv today
        let inv2 :=
          invoiceSave { inv1 with amountPaid := inv1.amountPaid + p.amount }
            today
        updateInvoice (updatePayment s p') inv2
    else
      let p' := { p with status := .failed }
      updatePayment s p'

/-! ### Small facts about the embedded operations -/

@[simp]
lemma invoiceSave_id (inv : Invoice) (t : Date) :
    (invoiceSave inv t).id = inv.id := rfl

@[simp]
lemma invoiceSave_leaseId (inv : Invoice) (t : Date) :
    (invoiceSave inv t).leaseId = inv.leaseId := rfl

@[simp]
lemma invoiceSave_billingMonth (inv : Invoice) (t : Date) :
    (invoiceSave inv t).billingMonth = inv.billingMonth := rfl

@[simp]
lemma invoiceSave_amountPaid (inv : Invoice) (t : Date) :
    (invoiceSave inv t).amountPaid = inv.amountPaid := rfl

@[simp]
lemma invoiceSave_rentAmount (inv : Invoice) (t : Date) :
    (invoiceSave inv t).rentAmount = inv.rentAmount := rfl

@[simp]
lemma invoiceSave_waterAmount (inv : Invoice) (t : Date) :
    (invoiceSave inv t).waterAmount = inv.waterAmount := rfl

@[simp]
lemma invoiceSave_garbageAmount (inv : Invoice) (t : Date) :
    (invoiceSave inv t).garbageAmount = inv.garbageAmount := rfl

@[simp]
lemma invoiceSave_otherCharges (inv : Invoice) (t : Date) :
    (invoiceSave inv t).otherCharges = inv.otherCharges := rfl

@[simp]
lemma invoiceSave_totalAmount (inv : Invoice) (t : Date) :
    (invoiceSave inv t).totalAmount =
      inv.rentAmount + inv.waterAmount + inv.garbageAmount +
        inv.otherCharges := rfl

lemma containsSeq_nil_pattern (l : List Char) : containsSeq l [] = true := by
  cases l with
  | nil => rfl
  | cons c cs => simp [containsSeq, startsWithSeq]

/-- The invariant of one invoice row: the stored total equals the sum
of the four stored charge components. -/
def totalsEq (i : Invoice) : Prop :=
  i.totalAmount =
    i.rentAmount + i.waterAmount + i.garbageAmount + i.otherCharges

instance totalsEqDecidable (i : Invoice) : Decidable (totalsEq i) := by
  unfold totalsEq
  infer_instance

/-! ### C3 -/

/-- A fully paid invoice (amount_paid = total_amount = 1000), past its
due date, correctly stored as 'paid' by its last save. -/
def invoicePaid : Invoice :=
  { id := 60, leaseId := 12, billingMonth := 2, dueDate := -1,
    rentAmount := 1000, waterAmount := 0, garbageAmount := 0,
    otherCharges := 0, totalAmount := 1000, amountPaid := 1000,
    status := .paid }

/-- A store holding the paid invoice, for the C3 counterexample. -/
def storeC3 : Store :=
  { properties := [{ id := 10, landlordId := 1 }],
    units := [{ id := 11, propertyId := 10, monthlyRent := 1000,
                garbageFee := 0, waterBillingType := .fixed,
                waterFixedAmount := 0, waterRatePerUnit := 0,
                lastWaterReading := 0 }],
    leases := [{ id := 12, unitId := 11, status := .active,
                 rentAmount := 1000 }],
    invoices := [invoicePaid],
    payments := [] }

/-- C3 counterexample: the admin bulk action mark_as_overdue persists
status='overdue' through a direct queryset UPDATE that bypasses
Invoice.save, so after running it on the fully paid invoice 60 the
stored status is 'overdue' even though amount_paid covers total_amount
and the pure derivation of the stored fields gives 'paid' — status is
not recomputed on this persist and has drifted from the numbers. -/
theorem c3_counterexample :
    (findInvoice (markAsOverdue storeC3 (fun n => n == 60)).1 60).map
        Invoice.status = some .overdue
    ∧ (findInvoice (markAsOverdue storeC3 (fun n => n == 60)).1 60).map
        (fun i => deriveStatus i.amountPaid i.totalAmount i.dueDate 0) =
          some .paid
    ∧ (findInvoice (markAsOverdue storeC3 (fun n => n == 60)).1 60).map
        (fun i => decide (i.totalAmount ≤ i.amountPaid)) = some true := by
  decide

/-- C3 amended: the status derivation is a pure function of
(amount_paid, total_amount, due_date, today) with the paid check first
— paid exactly when the total is covered (regardless of the due date),
else partial exactly when something is paid, else overdue exactly when
past due, with the spec's two concrete instances (day -1 is yesterday,
day 0 today) — and it is recomputed on every persist that goes through
Invoice.save, including the admin mark_as_paid action, whose stored row
is re-derived to 'paid' whenever the totals equation holds.  But not on
every persist: the admin mark_as_overdue bulk action writes
status='overdue' on each selected row by a queryset UPDATE that
bypasses Invoice.save, leaving every other field (and the drift with
the derivation) in place. -/
theorem c3_status_derivation (s : Store) (sel : Nat → Bool) (i : Invoice)
    (today : Date) (hmem : i ∈ s.invoices) (hsel : sel i.id = true) :
    (∀ (inv : Invoice) (t : Date),
        (invoiceSave inv t).status =
          deriveStatus inv.amountPaid
            (inv.rentAmount + inv.waterAmount + inv.garbageAmount +
              inv.otherCharges) inv.dueDate t)
    ∧ (∀ (ap tot : Money) (d td : Date),
        deriveStatus ap tot d td = .paid ↔ tot ≤ ap)
    ∧ (∀ (ap tot : Money) (d td : Date),
        deriveStatus ap tot d td = .partiallyPaid ↔ ¬tot ≤ ap ∧ 0 < ap)
    ∧ (∀ (ap tot : Money) (d td : Date),
        deriveStatus ap tot d td = .overdue ↔ ¬tot ≤ ap ∧ ¬0 < ap ∧ d < td)
    ∧ deriveStatus 0 18000 (-1) 0 = .overdue
    ∧ deriveStatus 18000 18000 (-1) 0 = .paid
    ∧ { i with status := InvoiceStatus.overdue } ∈
        (markAsOverdue s sel).1.invoices
    ∧ invoiceSave { i with amountPaid := i.totalAmount } today ∈
        (markAsPaid s sel today).invoices
    ∧ (∀ j : Invoice, totalsEq j →
        (invoiceSave { j with amountPaid := j.totalAmount } today).status =
          .paid) := by
  refine ⟨fun inv t => rfl, ?_, ?_, ?_, by decide, by decide, ?_, ?_, ?_⟩
  · intro ap tot d td
    unfold deriveStatus
    split_ifs with h1 h2 h3 <;> simp_all [ge_iff_le]
  · intro ap tot d td
    unfold deriveStatus
    split_ifs with h1 h2 h3 <;> simp_all [ge_iff_le]
  · intro ap tot d td
    unfold deriveStatus
    split_ifs with h1 h2 h3 <;> simp_all [ge_iff_le]
  · have hm := List.mem_map_of_mem
      (fun x => if sel x.id then { x with status := InvoiceStatus.overdue }
        else x) hmem
    dsimp only at hm
    rw [if_pos hsel] at hm
    exact hm
  · have hm := List.mem_map_of_mem
      (fun x => if sel x.id then
        invoiceSave { x with amountPaid := x.totalAmount } today else x)
      hmem
    dsimp only at hm
    rw [if_pos hsel] at hm
    exact hm
  · intro j hj
    show deriveStatus j.totalAmount
      (j.rentAmount + j.waterAmount + j.garbageAmount + j.otherCharges)
      j.dueDate today = .paid
    unfold totalsEq at hj
    rw [← hj]
    unfold deriveStatus
    rw [if_pos le_rfl]

/-- C3 witness: the theorem applied to the paid invoice 60 of the
concrete store, selected by the admin action. -/
theorem c3_status_derivation_witness :
    (invoicePaid ∈ storeC3.invoices
      ∧ (fun n => n == 60) invoicePaid.id = true)
    ∧ { invoicePaid with status := InvoiceStatus.overdue } ∈
        (markAsOverdue storeC3 (fun n => n == 60)).1.invoices :=
  ⟨⟨by decide, by decide⟩,
    (c3_status_derivation storeC3 (fun n => n == 60) invoicePaid 0
      (by decide) (by decide)).2.2.2.2.2.2.1⟩

/-! ### C8 -/

/-- The metered unit of the spec's concrete example: last stored
reading 100, rate 50 per unit. -/
def exampleMeteredUnit : UnitRec :=
  { id := 1, propertyId := 1, monthlyRent := 0, garbageFee := 0,
    waterBillingType := .metered, waterFixedAmount := 0,
    waterRatePerUnit := 50, lastWaterReading := 100 }

/-- C8: get_water_charge returns 0 in 'included' mode; the configured
fixed amount in 'fixed' mode regardless of any reading; in 'metered'
mode the consumption clamped at zero times the rate (hence never
negative for a nonnegative rate), and 0 when no reading is supplied;
and the spec's concrete instance (last reading 100, rate 50, new
reading 90) yields charge 0. -/
theorem c8_water_charge (u : UnitRec) (r : Money)
    (hrate : 0 ≤ u.waterRatePerUnit) :
    getWaterCharge { u with waterBillingType := .included } (some r) = 0
    ∧ getWaterCharge { u with waterBillingType := .included } none = 0
    ∧ getWaterCharge { u with waterBillingType := .fixed } (some r) =
        u.waterFixedAmount
    ∧ getWaterCharge { u with waterBillingType := .fixed } none =
        u.waterFixedAmount
    ∧ getWaterCharge { u with waterBillingType := .metered } (some r) =
        max (r - u.lastWaterReading) 0 * u.waterRatePerUnit
    ∧ getWaterCharge { u with waterBillingType := .metered } none = 0
    ∧ 0 ≤ getWaterCharge { u with waterBillingType := .metered } (some r)
    ∧ getWaterCharge exampleMeteredUnit (some 90) = 0 := by
  refine ⟨rfl, rfl, rfl, rfl, ?_, rfl, ?_, by decide⟩
  · show (if r - u.lastWaterReading < 0 then 0
      else r - u.lastWaterReading) * u.waterRatePerUnit = _
    rcases lt_or_le (r - u.lastWaterReading) 0 with h | h
    · rw [if_pos h, max_eq_right h.le]
    · rw [if_neg (not_lt.mpr h), max_eq_left h]
  · show 0 ≤ (if r - u.lastWaterReading < 0 then 0
      else r - u.lastWaterReading) * u.waterRatePerUnit
    split_ifs with h
    · simp
    · exact mul_nonneg (not_lt.mp h) hrate

/-- C8 witness: the theorem applied to the spec's concrete metered
unit and reading. -/
theorem c8_water_charge_witness :
    (0 : Money) ≤ exampleMeteredUnit.waterRatePerUnit
    ∧ getWaterCharge { exampleMeteredUnit with
        waterBillingType := .metered } (some 90) =
          max ((90 : Money) - exampleMeteredUnit.lastWaterReading) 0 *
            exampleMeteredUnit.waterRatePerUnit :=
  ⟨by decide, (c8_water_charge exampleMeteredUnit 90 (by decide)).2.2.2.2.1⟩

/-! ### C4 -/

/-- C4 amended: pending -> confirmed and pending -> failed behave as
specified (confirmation applies the amount to the invoice once, failure
has no invoice effect), and confirm_payment is a no-op on an
already-confirmed payment as fail_payment is on an already-failed one;
but the two states are not terminal against the opposite operation:
confirm_payment moves a failed payment to confirmed (applying its
amount), and fail_payment moves a confirmed payment to failed (without
reversing anything). -/
theorem c4_payment_state_machine (p : Payment) (inv : Invoice)
    (now : Nat) (today : Date) :
    confirmPayment { p with status := .confirmed } inv now today =
      ({ p with status := .confirmed }, inv)
    ∧ failPayment { p with status := .failed } inv today =
        ({ p with status := .failed }, inv)
    ∧ (confirmPayment { p with status := .pending } inv now today).1.status =
        .confirmed
    ∧ (confirmPayment { p with status := .pending } inv now
        today).2.amountPaid = inv.amountPaid + p.amount
    ∧ failPayment { p with status := .pending } inv today =
        ({ p with status := .failed }, inv)
    ∧ (confirmPayment { p with status := .failed } inv now today).1.status =
        .confirmed
    ∧ (confirmPayment { p with status := .failed } inv now
        today).2.amountPaid = inv.amountPaid + p.amount
    ∧ (failPayment { p with status := .confirmed } inv today).1.status =
        .failed
    ∧ (failPayment { p with status := .confirmed } inv today).2 = inv := by
  refine ⟨?_, ?_, ?_, ?_, ?_, ?_, ?_, ?_, ?_⟩ <;>
    simp [confirmPayment, failPayment, paymentSaveHook]

/-- A concrete failed payment and its invoice, for the C4
counterexample. -/
def examplePaymentFailed : Payment :=
  { id := 9, invoiceId := 50, amount := 300, method := .mpesa,
    phone := [], isManual := false, status := .failed, createdAt := 2,
    confirmedAt := none }

/-- A concrete invoice. -/
def exampleInvoice : Invoice :=
  { id := 50, leaseId := 12, billingMonth := 1, dueDate := 30,
    rentAmount := 1000, waterAmount := 0, garbageAmount := 0,
    otherCharges := 0, totalAmount := 1000, amountPaid := 0,
    status := .pending }

/-- C4 counterexample: a payment in state 'failed' is not left
unchanged by a subsequent confirm operation — confirm_payment moves it
to 'confirmed' (so 'failed' is not terminal as claimed). -/
theorem c4_counterexample :
    (confirmPayment examplePaymentFailed exampleInvoice 5 0).1.status ≠
        examplePaymentFailed.status
    ∧ (confirmPayment examplePaymentFailed exampleInvoice 5 0).1.status =
        .confirmed := by
  decide

/-! ### Concrete stores for the settled claims -/

/-- A store with one landlord (id 1) owning, through property 10 and
unit 11, the active lease 12 and its invoice 50: rent 1000, no other
charges, nothing paid, due on day 30. -/
def storeC1 : Store :=
  { properties := [{ id := 10, landlordId := 1 }],
    units := [{ id := 11, propertyId := 10, monthlyRent := 1000,
                garbageFee := 0, waterBillingType := .fixed,
                waterFixedAmount := 0, waterRatePerUnit := 0,
                lastWaterReading := 0 }],
    leases := [{ id := 12, unitId := 11, status := .active,
                 rentAmount := 1000 }],
    invoices := [exampleInvoice],
    payments := [] }

/-! ### C1 -/

/-- C1: evaluation of the manual-recording path at the failing input.
On invoice 50 (total 1000, nothing paid) a landlord records a manual
payment of 400.  The Payment row is created with amount 400, but the
invoice ends with amount_paid = 800: the amount is applied once by the
Payment.save hook and then a second time by the view's own
`invoice.amount_paid` update of the same in-memory invoice — not
exactly once as the claim requires. -/
theorem c1_manual_payment_applied_twice :
    (recordManualPaymentPost storeC1 (some 1) (some 50) (some 400)
        (some .cash) 7 0 100).1 = .success false
    ∧ ((recordManualPaymentPost storeC1 (some 1) (some 50) (some 400)
        (some .cash) 7 0 100).2.payments.map Payment.amount) = [400]
    ∧ (findInvoice (recordManualPaymentPost storeC1 (some 1) (some 50)
        (some 400) (some .cash) 7 0 100).2 50).map Invoice.amountPaid =
          some 800 := by
  decide

/-! ### C5 -/

/-- C5: evaluation of the manual-recording path at the failing input.
On invoice 50 (total 1000, balance 1000) a landlord records a manual
payment of exactly the balance; the amount passes validation unclamped
and unwarned, yet the invoice ends with amount_paid = 2000 and balance
-1000 — a manual payment drives the balance negative, against the
claimed invariant. -/
theorem c5_manual_payment_drives_balance_negative :
    (recordManualPaymentPost storeC1 (some 1) (some 50) (some 1000)
        (some .cash) 7 0 100).1 = .success false
    ∧ (findInvoice (recordManualPaymentPost storeC1 (some 1) (some 50)
        (some 1000) (some .cash) 7 0 100).2 50).map balance =
          some (-1000)
    ∧ (findInvoice (recordManualPaymentPost storeC1 (some 1) (some 50)
        (some 1000) (some .cash) 7 0 100).2 50).map Invoice.amountPaid =
          some 2000 := by
  decide

/-! ### C2 -/

/-- Landlord B's invoice in `storeC2`. -/
def invoiceOfB : Invoice :=
  { id := 50, leaseId := 22, billingMonth := 1, dueDate := 30,
    rentAmount := 1000, waterAmount := 0, garbageAmount := 0,
    otherCharges := 0, totalAmount := 1000, amountPaid := 0,
    status := .pending }

/-- A store with two landlords: A (id 1, property 10, unit 11, lease
12, no invoices) and B (id 2, property 20, unit 21, lease 22, invoice
50). -/
def storeC2 : Store :=
  { properties := [{ id := 10, landlordId := 1 }, { id := 20, landlordId := 2 }],
    units := [{ id := 11, propertyId := 10, monthlyRent := 800,
                garbageFee := 0, waterBillingType := .fixed,
                waterFixedAmount := 0, waterRatePerUnit := 0,
                lastWaterReading := 0 },
              { id := 21, propertyId := 20, monthlyRent := 1000,
                garbageFee := 0, waterBillingType := .fixed,
                waterFixedAmount := 0, waterRatePerUnit := 0,
                lastWaterReading := 0 }],
    leases := [{ id := 12, unitId := 11, status := .active, rentAmount := 800 },
               { id := 22, unitId := 21, status := .active, rentAmount := 1000 }],
    invoices := [invoiceOfB],
    payments := [] }

/-- C2 counterexample: invoice 50 is owned by landlord 2, yet the
M-Pesa initiation endpoint — which consults no landlord identity at
all — accepts its client-supplied primary key and mutates the payment
table against it (a pending payment is attached to landlord 2's
invoice).  So it is false that every mutating query over invoices and
payments is scoped by the requesting landlord's identity, and false
that a request by a different landlord fails with AccessDenied without
mutation. -/
theorem c2_counterexample :
    invoiceOwnerById storeC2 50 = some 2
    ∧ (initiateMpesaPost storeC2 (some 50)
        (some ['0', '7', '1', '2', '3', '4', '5', '6', '7', '8'])
        (some 100) 60 5).1 = .initiated 60
    ∧ ((initiateMpesaPost storeC2 (some 50)
        (some ['0', '7', '1', '2', '3', '4', '5', '6', '7', '8'])
        (some 100) 60 5).2.payments.map Payment.invoiceId) = [50] := by
  decide

/-! ### C7 -/

/-- A store with one landlord (id 1) and five active leases (ids
21-25); leases 21 and 23 already have invoices (ids 90, 91) for
billing month 7. -/
def storeC7 : Store :=
  { properties := [{ id := 10, landlordId := 1 }],
    units := (List.range 5).map (fun k =>
      { id := 11 + k, propertyId := 10, monthlyRent := 500 + (k : Int),
        garbageFee := 20, waterBillingType := .fixed,
        waterFixedAmount := 50, waterRatePerUnit := 0,
        lastWaterReading := 0 }),
    leases := (List.range 5).map (fun k =>
      { id := 21 + k, unitId := 11 + k, status := .active,
        rentAmount := 500 + (k : Int) }),
    invoices := [
      { id := 90, leaseId := 21, billingMonth := 7, dueDate := 30,
        rentAmount := 500, waterAmount := 50, garbageAmount := 20,
        otherCharges := 0, totalAmount := 570, amountPaid := 0,
        status := .pending },
      { id := 91, leaseId := 23, billingMonth := 7, dueDate := 30,
        rentAmount := 502, waterAmount := 50, garbageAmount := 20,
        otherCharges := 0, totalAmount := 572, amountPaid := 0,
        status := .pending }],
    payments := [] }

/-- C7 counterexample: in the monthly batch over storeC7's five active
leases, lease 21 is skipped, lease 22's invoice is created, lease 23
is skipped, and then lease 24's insert fails.  Because the whole batch
runs in one transaction, the failure rolls back lease 22's
already-created invoice: afterwards there is no invoice for (lease 22,
month 7) and the store is exactly as before — refuting the claim that
a failure on one lease does not roll back invoices already created for
other leases. -/
theorem c7_counterexample :
    (generateMonthlyPost storeC7 (some 1) (some 7) 45 0 300
        (fun n => n == 24)).1 = .serverError
    ∧ hasPair (generateMonthlyPost storeC7 (some 1) (some 7) 45 0 300
        (fun n => n == 24)).2.invoices 22 7 = false
    ∧ (generateMonthlyPost storeC7 (some 1) (some 7) 45 0 300
        (fun n => n == 24)).2 = storeC7 := by
  decide

/-- C2 amended: the landlord-facing invoice views are scoped by the
requesting landlord: a scoped lookup only ever returns an invoice owned
by the requester, and for an invoice owned by a different landlord the
detail view misses (HTTP 404, the spec's AccessDenied) and the
manual-recording view misses likewise and leaves the store unmutated —
for every choice of the primary key.  (The M-Pesa initiation endpoint,
by contrast, is not scoped: see the counterexample.) -/
theorem c2_landlord_views_scoped (s : Store) (a b pk : Nat) (inv : Invoice)
    (amt : Money) (meth : PayMethod) (now : Nat) (today : Date) (npid : Nat)
    (hnodup : (s.invoices.map Invoice.id).Nodup)
    (hfind : s.invoices.find? (fun i => i.id == pk) = some inv)
    (hown : invoiceOwner s inv = some b)
    (hab : b ≠ a) :
    getInvoiceScoped s a pk = none
    ∧ invoiceDetailGet s (some a) pk = .notFound
    ∧ recordManualPaymentPost s (some a) (some pk) (some amt) (some meth)
        now today npid = (.notFound, s)
    ∧ ∀ (lid pk' : Nat) (i : Invoice), getInvoiceScoped s lid pk' = some i →
        invoiceOwner s i = some lid ∧ i.id = pk' := by
  have hinvmem : inv ∈ s.invoices := List.mem_of_find?_eq_some hfind
  have hid : inv.id = pk := by simpa using List.find?_some hfind
  have hnone : getInvoiceScoped s a pk = none := by
    unfold getInvoiceScoped
    refine List.find?_eq_none.mpr ?_
    intro x hx hcontra
    simp only [Bool.and_eq_true, beq_iff_eq] at hcontra
    obtain ⟨hxid, hxown⟩ := hcontra
    have hxeq : x = inv :=
      List.inj_on_of_nodup_map hnodup hx hinvmem (by rw [hxid, hid])
    rw [hxeq, hown] at hxown
    exact hab (by simpa using hxown)
  refine ⟨hnone, ?_, ?_, ?_⟩
  · simp [invoiceDetailGet, hnone]
  · simp [recordManualPaymentPost, hnone]
  · intro lid pk' i h
    have hp := List.find?_some h
    simp only [Bool.and_eq_true, beq_iff_eq] at hp
    exact ⟨hp.2, hp.1⟩

/-- C2 witness: in the two-landlord store, landlord 1's request for
landlord 2's invoice 50 misses the scoped detail view. -/
theorem c2_landlord_views_scoped_witness :
    ((storeC2.invoices.map Invoice.id).Nodup
      ∧ storeC2.invoices.find? (fun i => i.id == 50) = some invoiceOfB
      ∧ invoiceOwner storeC2 invoiceOfB = some 2 ∧ (2 : Nat) ≠ 1)
    ∧ invoiceDetailGet storeC2 (some 1) 50 = .notFound :=
  ⟨⟨by decide, by decide, by decide, by decide⟩,
    (c2_landlord_views_scoped storeC2 1 2 50 invoiceOfB 100 .cash 7 0 99
      (by decide) (by decide) (by decide) (by decide)).2.1⟩

/-! ### C6 -/

lemma hasPair_of_countPair_zero (invs : List Invoice) (lid : Nat) (m : Int)
    (h : countPair invs lid m = 0) : hasPair invs lid m = false := by
  unfold countPair at h
  unfold hasPair
  rw [List.any_eq_false]
  intro x hx hpx
  have hmem : x ∈ invs.filter
      (fun i => i.leaseId == lid && i.billingMonth == m) :=
    List.mem_filter.mpr ⟨hx, hpx⟩
  rw [List.length_eq_zero.mp h] at hmem
  simp at hmem

lemma countPair_append (xs ys : List Invoice) (lid : Nat) (m : Int) :
    countPair (xs ++ ys) lid m = countPair xs lid m + countPair ys lid m := by
  simp [countPair, List.filter_append]

lemma hasPair_append (xs ys : List Invoice) (lid : Nat) (m : Int) :
    hasPair (xs ++ ys) lid m = (hasPair xs lid m || hasPair ys lid m) := by
  simp [hasPair]

lemma getLeaseScoped_invoices_irrel (s : Store) (x : List Invoice)
    (y : List Payment) (lid pk : Nat) :
    getLeaseScoped { s with invoices := x, payments := y } lid pk =
      getLeaseScoped s lid pk := rfl

/-- C6: with the lease resolving for its landlord and no invoice yet
stored for (lease, billing month), a first createInvoice succeeds and
leaves exactly one invoice for the pair; a second call for the same
pair fails with the duplicate-invoice error and returns the store
untouched, so the existing invoice is not overwritten and the pair
still has exactly one invoice. -/
theorem c6_duplicate_invoice_rejected (s : Store) (lid lpk : Nat)
    (l : LeaseRec) (m : Int) (due : Date) (rent water garbage other : Money)
    (id1 id2 : Nat) (today : Date)
    (hl : getLeaseScoped s lid lpk = some l)
    (h0 : countPair s.invoices l.id m = 0) :
    (invoiceCreatePost s (some lid) (some lpk) (some m) due rent water
        garbage other id1 today).1 = .created id1
    ∧ countPair (invoiceCreatePost s (some lid) (some lpk) (some m) due
        rent water garbage other id1 today).2.invoices l.id m = 1
    ∧ invoiceCreatePost (invoiceCreatePost s (some lid) (some lpk)
        (some m) due rent water garbage other id1 today).2 (some lid)
        (some lpk) (some m) due rent water garbage other id2 today =
        (.duplicateInvoice,
          (invoiceCreatePost s (some lid) (some lpk) (some m) due rent
            water garbage other id1 today).2) := by
  have hnp : hasPair s.invoices l.id m = false :=
    hasPair_of_countPair_zero s.invoices l.id m h0
  have hone :
      countPair (s.invoices ++
        [invoiceSave
          { id := id1, leaseId := l.id, billingMonth := m, dueDate := due,
            rentAmount := rent, waterAmount := water,
            garbageAmount := garbage, otherCharges := other,
            totalAmount := 0, amountPaid := 0,
            status := .pending } today]) l.id m = 1 := by
    rw [countPair_append, h0]
    simp [countPair]
  have hfirst :
      invoiceCreatePost s (some lid) (some lpk) (some m) due rent water
        garbage other id1 today =
      (.created id1,
        { s with invoices := s.invoices ++
          [invoiceSave
            { id := id1, leaseId := l.id, billingMonth := m,
              dueDate := due, rentAmount := rent, waterAmount := water,
              garbageAmount := garbage, otherCharges := other,
              totalAmount := 0, amountPaid := 0,
              status := .pending } today] }) := by
    simp [invoiceCreatePost, hl, hnp]
  refine ⟨by rw [hfirst], by rw [hfirst]; exact hone, ?_⟩
  rw [hfirst]
  have hl2 : getLeaseScoped
      { s with invoices := s.invoices ++
        [invoiceSave
          { id := id1, leaseId := l.id, billingMonth := m, dueDate := due,
            rentAmount := rent, waterAmount := water,
            garbageAmount := garbage, otherCharges := other,
            totalAmount := 0, amountPaid := 0,
            status := .pending } today] } lid lpk = some l := hl
  have hdup : hasPair (s.invoices ++
      [invoiceSave
        { id := id1, leaseId := l.id, billingMonth := m, dueDate := due,
          rentAmount := rent, waterAmount := water,
          garbageAmount := garbage, otherCharges := other,
          totalAmount := 0, amountPaid := 0,
          status := .pending } today]) l.id m = true := by
    rw [hasPair_append, hnp]
    simp [hasPair]
  simp [invoiceCreatePost, hl2, hdup]

/-- C6 witness: in the two-landlord store, landlord 1 creates the
first invoice for (lease 12, month 3) and a repeat is rejected as a
duplicate with the store unchanged. -/
theorem c6_duplicate_invoice_rejected_witness :
    (getLeaseScoped storeC2 1 12 =
        some { id := 12, unitId := 11, status := .active, rentAmount := 800 }
      ∧ countPair storeC2.invoices 12 3 = 0)
    ∧ (invoiceCreatePost storeC2 (some 1) (some 12) (some 3) 30 800 0 0 0
        70 0).1 = .created 70 :=
  ⟨⟨by decide, by decide⟩,
    (c6_duplicate_invoice_rejected storeC2 1 12
      { id := 12, unitId := 11, status := .active, rentAmount := 800 }
      3 30 800 0 0 0 70 71 0 (by decide) (by decide)).1⟩

/-! ### The monthly-batch loop in the failure-free case -/

lemma genLoop_ok_spec (units : List UnitRec) (m : Int) (due today : Date)
    (cf : Nat → Bool) :
    ∀ (ls : List LeaseRec) (invs : List Invoice) (c k nid : Nat),
      (ls.map LeaseRec.id).Nodup →
      (∀ l ∈ ls, cf l.id = false) →
      (∀ l ∈ ls, (units.find? (fun u => u.id == l.unitId)).isSome) →
      ∃ extra : List Invoice,
        genLoop units m due today cf ls invs c k nid =
          .ok (invs ++ extra,
            c + (ls.filter (fun l => !hasPair invs l.id m)).length,
            k + (ls.filter (fun l => hasPair invs l.id m)).length)
        ∧ (∀ e ∈ extra, e.leaseId ∈ ls.map LeaseRec.id
            ∧ e.totalAmount = e.rentAmount + e.waterAmount +
                e.garbageAmount + e.otherCharges)
        ∧ (∀ l ∈ ls, hasPair (invs ++ extra) l.id m = true) := by
  intro ls
  induction ls with
  | nil =>
    intro invs c k nid _ _ _
    exact ⟨[], by simp [genLoop], by simp, by simp⟩
  | cons l rest ih =>
    intro invs c k nid hnodup hcf hunits
    rw [List.map_cons, List.nodup_cons] at hnodup
    obtain ⟨hnd1, hnd2⟩ := hnodup
    have hcf1 := hcf l (List.mem_cons_self l rest)
    have hcfr : ∀ x ∈ rest, cf x.id = false :=
      fun x hx => hcf x (List.mem_cons_of_mem l hx)
    have hunitsr : ∀ x ∈ rest,
        (units.find? (fun u => u.id == x.unitId)).isSome :=
      fun x hx => hunits x (List.mem_cons_of_mem l hx)
    cases hhp : hasPair invs l.id m with
    | true =>
      obtain ⟨extra, heq, hex, hall⟩ := ih invs c (k + 1) nid hnd2 hcfr hunitsr
      refine ⟨extra, ?_, ?_, ?_⟩
      · rw [genLoop, if_pos hhp, heq]
        have h1 : ((l :: rest).filter
            (fun x => !hasPair invs x.id m)).length =
            (rest.filter (fun x => !hasPair invs x.id m)).length := by
          simp [List.filter_cons, hhp]
        have h2 : k + ((l :: rest).filter
            (fun x => hasPair invs x.id m)).length =
            k + 1 + (rest.filter (fun x => hasPair invs x.id m)).length := by
          simp [List.filter_cons, hhp]
          omega
        rw [h1, h2]
      · intro e he
        exact ⟨List.mem_cons_of_mem _ ((hex e he).1), (hex e he).2⟩
      · intro x hx
        rcases List.mem_cons.mp hx with rfl | hx'
        · rw [hasPair_append, hhp]
          rfl
        · exact hall x hx'
    | false =>
      obtain ⟨u, hu⟩ := Option.isSome_iff_exists.mp
        (hunits l (List.mem_cons_self l rest))
      obtain ⟨extra, heq, hex, hall⟩ :=
        ih (invs ++ [mkMonthlyInvoice l u m due nid today]) (c + 1) k
          (nid + 1) hnd2 hcfr hunitsr
      have hnewLease : (mkMonthlyInvoice l u m due nid today).leaseId = l.id := by
        simp [mkMonthlyInvoice]
      have hnewMonth :
          (mkMonthlyInvoice l u m due nid today).billingMonth = m := by
        simp [mkMonthlyInvoice]
      have hstable : ∀ x ∈ rest,
          hasPair (invs ++ [mkMonthlyInvoice l u m due nid today]) x.id m =
            hasPair invs x.id m := by
        intro x hx
        have hxid : l.id ≠ x.id := by
          intro hcontra
          exact hnd1 (hcontra ▸ List.mem_map_of_mem LeaseRec.id hx)
        rw [hasPair_append]
        have : hasPair [mkMonthlyInvoice l u m due nid today] x.id m =
            false := by
          simp [hasPair, hnewLease, hxid]
        rw [this, Bool.or_false]
      refine ⟨mkMonthlyInvoice l u m due nid today :: extra, ?_, ?_, ?_⟩
      · rw [genLoop, if_neg (by simp [hhp]), hu, hcf1]
        simp only [Bool.false_eq_true, if_false]
        rw [heq]
        have e1 : (invs ++ [mkMonthlyInvoice l u m due nid today]) ++ extra =
            invs ++ mkMonthlyInvoice l u m due nid today :: extra := by
          simp
        have e2 : c + 1 + (rest.filter
            (fun x => !hasPair (invs ++
              [mkMonthlyInvoice l u m due nid today]) x.id m)).length =
            c + ((l :: rest).filter
              (fun x => !hasPair invs x.id m)).length := by
          rw [List.filter_congr
            (fun x hx => by rw [hstable x hx] :
              ∀ x ∈ rest, (!hasPair (invs ++
                [mkMonthlyInvoice l u m due nid today]) x.id m) =
                (!hasPair invs x.id m))]
          simp [List.filter_cons, hhp]
          omega
        have e3 : k + (rest.filter
            (fun x => hasPair (invs ++
              [mkMonthlyInvoice l u m due nid today]) x.id m)).length =
            k + ((l :: rest).filter
              (fun x => hasPair invs x.id m)).length := by
          rw [List.filter_congr
            (fun x hx => hstable x hx :
              ∀ x ∈ rest, hasPair (invs ++
                [mkMonthlyInvoice l u m due nid today]) x.id m =
                hasPair invs x.id m)]
          simp [List.filter_cons, hhp]
        rw [e1, e2, e3]
      · intro e he
        rcases List.mem_cons.mp he with rfl | he'
        · refine ⟨?_, by simp [mkMonthlyInvoice]⟩
          rw [hnewLease]
          exact List.mem_map_of_mem LeaseRec.id (List.mem_cons_self _ _)
        · exact ⟨List.mem_cons_of_mem _ ((hex e he').1), (hex e he').2⟩
      · intro x hx
        rcases List.mem_cons.mp hx with rfl | hx'
        · unfold hasPair
          rw [List.any_append, List.any_cons]
          have hpred : ((mkMonthlyInvoice x u m due nid today).leaseId ==
              x.id && (mkMonthlyInvoice x u m due nid today).billingMonth ==
                m) = true := by
            rw [hnewLease, hnewMonth]
            simp
          rw [hpred]
          simp
        · rw [show invs ++ mkMonthlyInvoice l u m due nid today :: extra =
              (invs ++ [mkMonthlyInvoice l u m due nid today]) ++ extra by
                simp]
          exact hall x hx'

/-- C7 amended: when no lease's insert fails, the monthly batch over a
landlord's active leases reports created = the number of active leases
lacking an invoice for the period and skipped = the number already
invoiced, appends the new invoices after the untouched existing rows,
and leaves every active lease with an invoice for the period; but the
batch is a single transaction, not one per invoice: whenever it ends in
the failure outcome, the store is returned exactly as it was (every
invoice created earlier in the batch is rolled back). -/
theorem c7_monthly_batch (s : Store) (lid : Nat) (m : Int)
    (due today : Date) (idBase : Nat) (cf : Nat → Bool)
    (hids : ((activeLeases s lid).map LeaseRec.id).Nodup)
    (hok : ∀ l ∈ activeLeases s lid, cf l.id = false)
    (hunits : ∀ l ∈ activeLeases s lid,
      (s.units.find? (fun u => u.id == l.unitId)).isSome) :
    (generateMonthlyPost s (some lid) (some m) due today idBase cf).1 =
      .generated
        ((activeLeases s lid).filter
          (fun l => !hasPair s.invoices l.id m)).length
        ((activeLeases s lid).filter
          (fun l => hasPair s.invoices l.id m)).length
    ∧ (∃ extra, (generateMonthlyPost s (some lid) (some m) due today
        idBase cf).2.invoices = s.invoices ++ extra)
    ∧ (∀ l ∈ activeLeases s lid,
        hasPair (generateMonthlyPost s (some lid) (some m) due today
          idBase cf).2.invoices l.id m = true)
    ∧ (∀ cf' : Nat → Bool,
        (generateMonthlyPost s (some lid) (some m) due today idBase
          cf').1 = .serverError →
        (generateMonthlyPost s (some lid) (some m) due today idBase
          cf').2 = s) := by
  obtain ⟨extra, heq, _, hall⟩ :=
    genLoop_ok_spec s.units m due today cf (activeLeases s lid) s.invoices
      0 0 idBase hids hok hunits
  have hred : generateMonthlyPost s (some lid) (some m) due today idBase
      cf = (.generated
        ((activeLeases s lid).filter
          (fun l => !hasPair s.invoices l.id m)).length
        ((activeLeases s lid).filter
          (fun l => hasPair s.invoices l.id m)).length,
        { s with invoices := s.invoices ++ extra }) := by
    unfold generateMonthlyPost
    dsimp only
    rw [heq]
    simp
  refine ⟨by rw [hred], ⟨extra, by rw [hred]⟩, ?_, ?_⟩
  · intro l hl
    rw [hred]
    exact hall l hl
  · intro cf' hfail
    unfold generateMonthlyPost at hfail ⊢
    dsimp only at hfail ⊢
    cases hres : genLoop s.units m due today cf' (activeLeases s lid)
        s.invoices 0 0 idBase with
    | error e => rfl
    | ok r =>
      obtain ⟨invs, c, k⟩ := r
      rw [hres] at hfail
      simp at hfail

/-- C7 witness: the spec's 5-lease example — two leases already
invoiced for month 7 — yields created = 3, skipped = 2. -/
theorem c7_monthly_batch_witness :
    ((activeLeases storeC7 1).map LeaseRec.id).Nodup
    ∧ (generateMonthlyPost storeC7 (some 1) (some 7) 45 0 300
        (fun _ => false)).1 = .generated 3 2 := by
  constructor
  · decide
  · have h := (c7_monthly_batch storeC7 1 7 45 0 300 (fun _ => false)
      (by decide) (by decide) (by decide)).1
    rw [h]
    decide

/-! ### C9: totals are never stored apart from their components -/

/-- Every invoice row of the store satisfies the C9 equation. -/
def totalsOK (s : Store) : Prop :=
  ∀ i ∈ s.invoices, totalsEq i

instance totalsOKDecidable (s : Store) : Decidable (totalsOK s) := by
  unfold totalsOK
  infer_instance

lemma totalsEq_invoiceSave (inv : Invoice) (t : Date) :
    totalsEq (invoiceSave inv t) := by
  simp [totalsEq]

lemma totalsOK_updateInvoice (s : Store) (i : Invoice) (h : totalsOK s)
    (hi : totalsEq i) : totalsOK (updateInvoice s i) := by
  intro j hj
  obtain ⟨x, hx, hxeq⟩ := List.mem_map.mp hj
  by_cases hid : (x.id == i.id) = true
  · rw [if_pos hid] at hxeq
    exact hxeq ▸ hi
  · rw [if_neg hid] at hxeq
    exact hxeq ▸ h x hx

lemma genLoop_totals (units : List UnitRec) (m : Int) (due today : Date)
    (cf : Nat → Bool) :
    ∀ (ls : List LeaseRec) (invs : List Invoice) (c k nid : Nat)
      (res : List Invoice × Nat × Nat),
      genLoop units m due today cf ls invs c k nid = .ok res →
      (∀ i ∈ invs, totalsEq i) → ∀ i ∈ res.1, totalsEq i := by
  intro ls
  induction ls with
  | nil =>
    intro invs c k nid res heq hinv
    rw [genLoop] at heq
    cases heq
    exact hinv
  | cons l rest ih =>
    intro invs c k nid res heq hinv
    rw [genLoop] at heq
    by_cases hhp : hasPair invs l.id m = true
    · rw [if_pos hhp] at heq
      exact ih invs c (k + 1) nid res heq hinv
    · rw [if_neg hhp] at heq
      cases hu : units.find? (fun u => u.id == l.unitId) with
      | none =>
        rw [hu] at heq
        cases heq
      | some u =>
        rw [hu] at heq
        dsimp only at heq
        by_cases hcf : cf l.id = true
        · rw [if_pos hcf] at heq
          cases heq
        · rw [if_neg hcf] at heq
          refine ih _ (c + 1) k (nid + 1) res heq ?_
          intro i hi
          rcases List.mem_append.mp hi with hi' | hi'
          · exact hinv i hi'
          · rw [List.mem_singleton.mp hi']
            exact totalsEq_invoiceSave _ _

/-- C9: invoices are persisted only through Invoice.save, which always
recomputes total_amount as the sum of the four charge components; so
the equation holds of every saved invoice, and each modelled operation
(manual payment recording, invoice creation, monthly batch generation,
gateway callback processing) maps a store whose invoices all satisfy it
to a store whose invoices all still satisfy it. -/
theorem c9_total_is_component_sum (s : Store) (req : Option Nat)
    (iid : Option Nat) (amt : Option Money) (meth : Option PayMethod)
    (now : Nat) (today : Date) (npid : Nat) (lpk : Option Nat)
    (bm : Option Int) (due : Date) (rent water garbage other : Money)
    (nid : Nat) (idBase : Nat) (cf : Nat → Bool)
    (phone : Option (List Char)) (rc : Int)
    (h : totalsOK s) :
    (∀ (inv : Invoice) (t : Date), totalsEq (invoiceSave inv t))
    ∧ totalsOK (recordManualPaymentPost s req iid amt meth now today
        npid).2
    ∧ totalsOK (invoiceCreatePost s req lpk bm due rent water garbage
        other nid today).2
    ∧ totalsOK (generateMonthlyPost s req bm due today idBase cf).2
    ∧ totalsOK (mpesaCallbackPost s phone rc now today) := by
  refine ⟨fun inv t => totalsEq_invoiceSave inv t, ?_, ?_, ?_, ?_⟩
  · rcases req with _ | lid
    · exact h
    rcases iid with _ | pk
    · exact h
    rcases amt with _ | a
    · exact h
    rcases meth with _ | mth
    · exact h
    simp only [recordManualPaymentPost]
    cases hg : getInvoiceScoped s lid pk with
    | none => exact h
    | some inv =>
      dsimp only
      split_ifs with hle hwarn
      · exact h
      · exact totalsOK_updateInvoice _ _ h (totalsEq_invoiceSave _ _)
      · exact totalsOK_updateInvoice _ _ h (totalsEq_invoiceSave _ _)
  · rcases req with _ | lid
    · exact h
    rcases lpk with _ | lp
    · exact h
    simp only [invoiceCreatePost]
    cases hg : getLeaseScoped s lid lp with
    | none => exact h
    | some l =>
      rcases bm with _ | m
      · exact h
      dsimp only
      split_ifs with hdup
      · exact h
      · intro i hi
        rcases List.mem_append.mp hi with hi' | hi'
        · exact h i hi'
        · rw [List.mem_singleton.mp hi']
          exact totalsEq_invoiceSave _ _
  · rcases req with _ | lid
    · exact h
    rcases bm with _ | m
    · exact h
    simp only [generateMonthlyPost]
    cases hres : genLoop s.units m due today cf (activeLeases s lid)
        s.invoices 0 0 idBase with
    | error e => exact h
    | ok r =>
      obtain ⟨invs, c, k⟩ := r
      dsimp only
      exact genLoop_totals s.units m due today cf (activeLeases s lid)
        s.invoices 0 0 idBase (invs, c, k) hres h
  · simp only [mpesaCallbackPost]
    cases hsel : selectCallbackPayment s.payments (callbackSuffix phone) with
    | none => exact h
    | some p =>
      dsimp only
      split_ifs with hrc
      · cases hfi : findInvoice s p.invoiceId with
        | none => exact h
        | some inv =>
          dsimp only
          exact totalsOK_updateInvoice _ _ h (totalsEq_invoiceSave _ _)
      · exact h

/-- C9 witness: the theorem applied to the one-landlord store and the
gateway-callback operation. -/
theorem c9_total_is_component_sum_witness :
    totalsOK storeC1
    ∧ totalsOK (mpesaCallbackPost storeC1 none 0 1 0) :=
  ⟨by decide,
    (c9_total_is_component_sum storeC1 (some 1) (some 50) (some 400)
      (some .cash) 7 0 100 (some 12) (some 2) 30 1000 0 0 0 71 300
      (fun _ => false) none 0 (by decide)).2.2.2.2⟩

/-! ### C10: the gateway callback with no phone number -/

lemma foldl_moreRecent_mem (ps : List Payment) :
    ∀ (acc : Option Payment) (p : Payment),
      ps.foldl moreRecent acc = some p → acc = some p ∨ p ∈ ps := by
  induction ps with
  | nil =>
    intro acc p h
    exact Or.inl h
  | cons q qs ih =>
    intro acc p h
    rcases ih (moreRecent acc q) p h with h1 | h1
    · rcases acc with _ | r
      · have hq : q = p := by simpa [moreRecent] using h1
        exact Or.inr (by rw [← hq]; exact List.mem_cons_self _ _)
      · dsimp only [moreRecent] at h1
        split_ifs at h1 with hgt
        · have hq : q = p := by simpa using h1
          exact Or.inr (by rw [← hq]; exact List.mem_cons_self _ _)
        · exact Or.inl h1
    · exact Or.inr (List.mem_cons_of_mem _ h1)

lemma mostRecentFirst_mem (ps : List Payment) (p : Payment)
    (h : mostRecentFirst ps = some p) : p ∈ ps := by
  rcases foldl_moreRecent_mem ps none p h with h1 | h1
  · cases h1
  · exact h1

lemma selectCallbackPayment_spec (ps : List Payment) (suf : List Char)
    (p : Payment) (h : selectCallbackPayment ps suf = some p) :
    p ∈ ps ∧ matchesCallback suf p = true := by
  have hm := mostRecentFirst_mem _ _ h
  exact ⟨(List.mem_filter.mp hm).1, (List.mem_filter.mp hm).2⟩

lemma find?_map_update {α : Type} (idf : α → Nat) (l : List α) (a : α)
    (tid : Nat) (ha : idf a = tid) (hmem : ∃ x ∈ l, idf x = tid) :
    (l.map (fun q => if idf q == idf a then a else q)).find?
      (fun q => idf q == tid) = some a := by
  induction l with
  | nil =>
    obtain ⟨x, hx, _⟩ := hmem
    exact absurd hx (List.not_mem_nil x)
  | cons x xs ih =>
    by_cases hx : idf x = idf a
    · have hhead : (if idf x == idf a then a else x) = a := by simp [hx]
      rw [List.map_cons, hhead, List.find?_cons_of_pos _ (by simp [ha])]
    · have hhead : (if idf x == idf a then a else x) = x := by simp [hx]
      rw [List.map_cons, hhead,
        List.find?_cons_of_neg _ (by rw [← ha]; simp [hx])]
      apply ih
      rcases hmem with ⟨y, hy, hyid⟩
      rcases List.mem_cons.mp hy with rfl | hy'
      · exact absurd (hyid.trans ha.symm) hx
      · exact ⟨y, hy', hyid⟩

/-- C10: when the callback payload carries no phone number the
correlation suffix is the empty string, which every phone matches, so
the candidate set is every pending payment system-wide and the one
selected is the most recently created of them; on result code 0 that
payment is saved as confirmed and its invoice's amount_paid strictly
increases, and on a nonzero result code it is saved as failed with the
invoices untouched. -/
theorem c10_callback_without_phone (s : Store) (p : Payment)
    (inv : Invoice) (rc : Int) (now : Nat) (today : Date)
    (hsel : selectCallbackPayment s.payments [] = some p)
    (hinv : findInvoice s p.invoiceId = some inv)
    (hamt : 0 < p.amount)
    (hrc : rc ≠ 0) :
    callbackSuffix none = []
    ∧ (∀ ph : List Char, containsSeq ph [] = true)
    ∧ (∀ ps : List Payment, selectCallbackPayment ps [] =
        mostRecentFirst (ps.filter (fun q => q.status == .pending)))
    ∧ (mpesaCallbackPost s none 0 now today).payments.find?
        (fun q => q.id == p.id) =
        some { p with status := .confirmed, confirmedAt := some now }
    ∧ (∃ inv', findInvoice (mpesaCallbackPost s none 0 now today)
        p.invoiceId = some inv'
        ∧ inv'.amountPaid = inv.amountPaid + p.amount + p.amount
        ∧ inv.amountPaid < inv'.amountPaid)
    ∧ (mpesaCallbackPost s none rc now today).payments.find?
        (fun q => q.id == p.id) = some { p with status := .failed }
    ∧ (mpesaCallbackPost s none rc now today).invoices = s.invoices := by
  have hpmem : p ∈ s.payments := (selectCallbackPayment_spec _ _ _ hsel).1
  have hstat : p.status = .pending := by
    have h2 := (selectCallbackPayment_spec _ _ _ hsel).2
    simp [matchesCallback] at h2
    exact h2.1
  have hinvmem : inv ∈ s.invoices := List.mem_of_find?_eq_some hinv
  have hinvid : inv.id = p.invoiceId := by
    simpa using List.find?_some hinv
  have hexists : ∃ inv2 : Invoice,
      mpesaCallbackPost s none 0 now today =
        updateInvoice
          (updatePayment s
            { p with status := .confirmed, confirmedAt := some now }) inv2
      ∧ inv2.id = inv.id
      ∧ inv2.amountPaid = inv.amountPaid + p.amount + p.amount := by
    refine ⟨invoiceSave
      { paymentSaveHook
          { p with status := .confirmed, confirmedAt := some now }
          (some p.status) inv today with
        amountPaid :=
          (paymentSaveHook
            { p with status := .confirmed, confirmedAt := some now }
            (some p.status) inv today).amountPaid + p.amount } today,
      ?_, by simp [paymentSaveHook, hstat], ?_⟩
    · unfold mpesaCallbackPost
      dsimp only [callbackSuffix]
      rw [hsel]
      dsimp only
      rw [if_pos rfl, hinv]
    · rw [invoiceSave_amountPaid]
      unfold paymentSaveHook
      rw [if_pos ⟨rfl, by simp [hstat]⟩]
      rw [invoiceSave_amountPaid]
  obtain ⟨inv2, hred, hid2, hpaid2⟩ := hexists
  have hfred : mpesaCallbackPost s none rc now today =
      updatePayment s { p with status := .failed } := by
    unfold mpesaCallbackPost
    dsimp only [callbackSuffix]
    rw [hsel]
    dsimp only
    rw [if_neg hrc]
  refine ⟨rfl, containsSeq_nil_pattern, ?_, ?_, ?_, ?_, ?_⟩
  · intro ps
    unfold selectCallbackPayment
    congr 1
    exact List.filter_congr
      (fun q _ => by simp [matchesCallback, containsSeq_nil_pattern])
  · rw [hred]
    exact find?_map_update Payment.id s.payments
      { p with status := .confirmed, confirmedAt := some now } p.id rfl
      ⟨p, hpmem, rfl⟩
  · refine ⟨inv2, ?_, hpaid2, ?_⟩
    · rw [hred]
      exact find?_map_update Invoice.id s.invoices inv2 p.invoiceId
        (hid2.trans hinvid) ⟨inv, hinvmem, hinvid⟩
    · rw [hpaid2]
      linarith
  · rw [hfred]
    exact find?_map_update Payment.id s.payments
      { p with status := .failed } p.id rfl ⟨p, hpmem, rfl⟩
  · rw [hfred]
    rfl

/-- Two pending M-Pesa payments of different landlords for C10's
witness: payment 202 (landlord 2's invoice 50) is the more recent. -/
def storeC10 : Store :=
  { storeC2 with
    invoices := [invoiceOfB,
      { id := 40, leaseId := 12, billingMonth := 1, dueDate := 30,
        rentAmount := 800, waterAmount := 0, garbageAmount := 0,
        otherCharges := 0, totalAmount := 800, amountPaid := 0,
        status := .pending }],
    payments := [
      { id := 201, invoiceId := 40, amount := 100, method := .mpesa,
        phone := ['2', '5', '4', '7', '0', '0', '0', '0', '0', '0', '1'],
        isManual := false, status := .pending, createdAt := 3,
        confirmedAt := none },
      { id := 202, invoiceId := 50, amount := 200, method := .mpesa,
        phone := ['2', '5', '4', '7', '1', '1', '1', '1', '1', '1', '2'],
        isManual := false, status := .pending, createdAt := 9,
        confirmedAt := none }] }

/-- C10 witness: in a store holding pending payments of two different
landlords, the no-phone callback selects the most recently created one
(payment 202, landlord 2's) and a success code confirms it. -/
theorem c10_callback_without_phone_witness :
    (selectCallbackPayment storeC10.payments [] = some
      { id := 202, invoiceId := 50, amount := 200, method := .mpesa,
        phone := ['2', '5', '4', '7', '1', '1', '1', '1', '1', '1', '2'],
        isManual := false, status := .pending, createdAt := 9,
        confirmedAt := none })
    ∧ (mpesaCallbackPost storeC10 none 0 44 0).payments.find?
        (fun q => q.id == 202) = some
        { id := 202, invoiceId := 50, amount := 200, method := .mpesa,
          phone := ['2', '5', '4', '7', '1', '1', '1', '1', '1', '1', '2'],
          isManual := false, status := .confirmed, createdAt := 9,
          confirmedAt := some 44 } :=
  ⟨by decide,
    (c10_callback_without_phone storeC10
      { id := 202, invoiceId := 50, amount := 200, method := .mpesa,
        phone := ['2', '5', '4', '7', '1', '1', '1', '1', '1', '1', '2'],
        isManual := false, status := .pending, createdAt := 9,
        confirmedAt := none }
      invoiceOfB 1 44 0 (by decide) (by decide) (by decide)
      (by decide)).2.2.2.1⟩

end Tenara
